import Mathlib

/- Shallow embedding of src/Backend/lambda_function.py: an AWS Lambda that
   proxies RepairShopr API calls and implements Cognito-backed user
   administration.  External collaborators (the Cognito identity directory,
   the upstream HTTP API, and library calls such as json.loads and
   requests.request) are modelled by explicit state threading and outcome
   oracles; Python dicts of strings are association lists with last-wins
   update.  Exception texts from the Python runtime are modelled by fixed
   strings (quote characters omitted). -/

/-- Auxiliary loop for Python str.split on a single separator character:
the accumulator holds the current token reversed. -/
def pySplitCommaAux : List Char → List Char → List String
  | [], acc => [String.mk acc.reverse]
  | c :: rest, acc =>
    if c = ',' then String.mk acc.reverse :: pySplitCommaAux rest []
    else pySplitCommaAux rest (c :: acc)

/-- Python s.split on a comma: every separator occurrence splits, empty
tokens are kept, and the empty string yields one empty token. -/
def pySplitComma (s : String) : List String := pySplitCommaAux s.data []

/-- Python s.startswith. -/
def strStartsWith (s pre : String) : Bool := pre.data.isPrefixOf s.data

/-- Python slicing s[n:]. -/
def strDrop (s : String) (n : Nat) : String := String.mk (s.data.drop n)

/-- Python s.strip: remove leading and trailing whitespace. -/
def pyStrip (s : String) : String :=
  String.mk (((s.data.dropWhile Char.isWhitespace).reverse.dropWhile Char.isWhitespace).reverse)

/-- HTTP-style header map: ordered association list with unique keys,
mirroring a Python dict of strings. -/
abbrev Headers := List (String × String)

/-- Python dict lookup. -/
def hget (h : Headers) (k : String) : Option String :=
  (h.find? (fun p => p.1 == k)).map (fun p => p.2)

/-- Python dict assignment: replace an existing key in place, else append. -/
def hset (h : Headers) (k v : String) : Headers :=
  if h.any (fun p => p.1 == k) then
    h.map (fun p => if p.1 == k then (k, v) else p)
  else h ++ [(k, v)]

/-- Python dict.pop with default None: drop the key if present. -/
def hpop (h : Headers) (k : String) : Headers :=
  h.filter (fun p => !(p.1 == k))

/-- Python dict.update: fold assignments left to right. -/
def hupdate (h extra : Headers) : Headers :=
  extra.foldl (fun acc p => hset acc p.1 p.2) h

/-- The body field of the Lambda event: absent, or a raw string together with
the outcome of json.loads on it (none when the load raises; a parsed JSON
object is modelled as its string-valued fields). -/
inductive BodyField
  | absent
  | strVal (raw : String) (parsed : Option (List (String × String)))
deriving DecidableEq, Repr

/-- Result of json.loads applied to the request body; the code supplies an
empty JSON object as default for an absent body, which parses to no fields. -/
def parseBody : BodyField → Option (List (String × String))
  | .absent => some []
  | .strVal _ parsed => parsed

/-- The raw payload forwarded as the data argument of the outbound request. -/
def bodyData : BodyField → Option String
  | .absent => none
  | .strVal raw _ => some raw

/-- JSON object field lookup, as Python body.get. -/
def lookupField (fields : List (String × String)) (k : String) : Option String :=
  (fields.find? (fun p => p.1 == k)).map (fun p => p.2)

/-- Possible shapes of the cognito:groups claim attached by the authorizer:
absent, a comma-separated string, a list of strings, or some other
non-iterable value (represented by an integer). -/
inductive GroupsVal
  | absent
  | str (s : String)
  | list (l : List String)
  | intVal (n : Int)
deriving DecidableEq, Repr

/-- Cognito user status values relevant to the code. -/
inductive UserStatus
  | CONFIRMED
  | FORCE_CHANGE_PASSWORD
  | OTHER_STATUS
deriving DecidableEq, Repr

/-- A Cognito user pool entry as the code reads it. -/
structure DirUser where
  status : UserStatus
  enabled : Bool
  email : Option String
  groups : List String
deriving DecidableEq, Repr

/-- The user pool: username-keyed entries. -/
abbrev Directory := List (String × DirUser)

/-- The directory holds an entry for the username. -/
def dirHas (dir : Directory) (u : String) : Bool := dir.any (fun p => p.1 == u)

/-- admin_get / lookup of one entry. -/
def dirLookup (dir : Directory) (u : String) : Option DirUser :=
  (dir.find? (fun p => p.1 == u)).map (fun p => p.2)

/-- Replace the group list of an entry (the remove-from-current-groups loops
are modelled by replacing the list with the memberships that survive). -/
def dirSetGroups (dir : Directory) (u : String) (gs : List String) : Directory :=
  dir.map (fun p => if p.1 == u then (p.1, { p.2 with groups := gs }) else p)

/-- admin_add_user_to_group: membership addition, idempotent. -/
def dirAddGroup (dir : Directory) (u g : String) : Directory :=
  dir.map (fun p =>
    if p.1 == u then
      (p.1, { p.2 with groups := if p.2.groups.contains g then p.2.groups else p.2.groups ++ [g] })
    else p)

/-- admin_delete_user. -/
def dirDelete (dir : Directory) (u : String) : Directory :=
  dir.filter (fun p => !(p.1 == u))

/-- The normalized inbound request as the Lambda event presents it. -/
structure Event where
  httpMethod : String
  path : String
  headers : Headers
  queryStringParameters : Option (List (String × String))
  body : BodyField
  groupsClaim : GroupsVal
deriving DecidableEq, Repr

/-- One entry of the users listing assembled by handle_list_users. -/
structure UserSummary where
  username : String
  email : Option String
  enabled : Bool
  groups : List String
deriving DecidableEq, Repr

/-- Response bodies: raw text, a flat JSON object of strings, the invite
success payload (message plus echoed created user), or the users listing. -/
inductive RespBody
  | text (s : String)
  | jsonObj (fields : List (String × String))
  | inviteBody (message : String) (username : String)
  | usersBody (users : List UserSummary)
deriving DecidableEq, Repr

/-- An API Gateway Lambda response. -/
structure Response where
  statusCode : Nat
  headers : Headers
  body : RespBody
deriving DecidableEq, Repr

/-- The lone Content-Type header used by all user-management responses. -/
def ctJson : Headers := [("Content-Type", "application/json")]

/-- A bare JSON error response with only a Content-Type header. -/
def jsonError (status : Nat) (msg : String) : Response :=
  ⟨status, ctJson, .jsonObj [("error", msg)]⟩

/-- Whether a JSON-object response body carries the given field. -/
def hasField (b : RespBody) (k : String) : Bool :=
  match b with
  | .jsonObj fields => fields.any (fun p => p.1 == k)
  | _ => false

/-- The fixed upstream base URL (line 9). -/
def TARGET_URL : String := "https://Cacell.repairshopr.com/api/v1"

/-- Lines 12-19: the full CORS header set. -/
def get_cors_headers : Headers :=
  [("Access-Control-Allow-Origin", "*"),
   ("Access-Control-Allow-Headers", "Content-Type,X-Amz-Date,Authorization,X-Api-Key,X-Amz-Security-Token"),
   ("Access-Control-Allow-Methods", "GET,POST,PUT,DELETE,OPTIONS"),
   ("Access-Control-Max-Age", "86400")]

/-- The three CORS headers written inline in every proxy response (no
Access-Control-Max-Age there). -/
def proxyCors : Headers :=
  [("Access-Control-Allow-Origin", "*"),
   ("Access-Control-Allow-Headers", "Content-Type,X-Amz-Date,Authorization,X-Api-Key,X-Amz-Security-Token"),
   ("Access-Control-Allow-Methods", "GET,POST,PUT,DELETE,OPTIONS")]

/-- Content-Type plus the three proxy CORS headers, as written literally in
the proxy error branches. -/
def ctProxyCors : Headers := ("Content-Type", "application/json") :: proxyCors

/-- Lines 362-378, get_user_groups_from_event: an absent claim yields an
empty list, a string is split on commas (no trimming, empty entries kept),
a list is returned as-is, and any other value is returned unchanged.  The
surrounding try/except makes the function total. -/
def get_user_groups_from_event : GroupsVal → GroupsVal
  | .absent => .list []
  | .str s => .list (pySplitComma s)
  | .list l => .list l
  | .intVal n => .intVal n

/-- Lines 380-388. -/
def can_invite_users (user_groups : List String) : Bool :=
  let allowed_groups := ["TrueTickets-Cacell-ApplicationAdmin",
                         "TrueTickets-Cacell-Owner",
                         "TrueTickets-Cacell-Manager"]
  user_groups.any (fun group => allowed_groups.contains group)

/-- Lines 593-600. -/
def can_manage_users (user_groups : List String) : Bool :=
  let allowed_groups := ["TrueTickets-Cacell-ApplicationAdmin",
                         "TrueTickets-Cacell-Owner"]
  user_groups.any (fun group => allowed_groups.contains group)

/-- Lines 390-405: every branch resolves to the Employee group. -/
def get_default_group_for_inviter (user_groups : List String) : String :=
  if user_groups.contains "TrueTickets-Cacell-ApplicationAdmin" then "TrueTickets-Cacell-Employee"
  else if user_groups.contains "TrueTickets-Cacell-Owner" then "TrueTickets-Cacell-Employee"
  else if user_groups.contains "TrueTickets-Cacell-Manager" then "TrueTickets-Cacell-Employee"
  else "TrueTickets-Cacell-Employee"

/-- The spec description of ClaimsExtractor.extract (spec section 4.1),
stated independently of the code for comparison: split or coerce, trim each
entry, drop empties, and default every unrecognized shape to the empty set. -/
def extract_spec : GroupsVal → List String
  | .absent => []
  | .str s => ((pySplitComma s).map pyStrip).filter (fun t => t != "")
  | .list l => (l.map pyStrip).filter (fun t => t != "")
  | .intVal _ => []

/-- Cleanup taking the code extraction output to a trimmed, empty-free list,
defaulting non-list values to the empty list. -/
def normalizeGroups : GroupsVal → List String
  | .list l => (l.map pyStrip).filter (fun t => t != "")
  | _ => []

/-- Outcome of the single requests.request call: a received HTTP response
(carrying the optional message field of its JSON body, none when the body
is not a JSON object), or one of the exception classes the code catches. -/
inductive UpstreamResult
  | ok (status : Nat) (respHeaders : Headers) (text : String) (jsonMessage : Option (Option String))
  | connError (msg : String)
  | timeout (msg : String)
  | httpError (msg : String)
  | unexpected (msg : String)
deriving DecidableEq, Repr

/-- The outbound HTTP request handed to requests.request. -/
structure OutboundRequest where
  method : String
  url : String
  headers : Headers
  params : Option (List (String × String))
  data : Option String
  timeoutSecs : Nat
deriving DecidableEq, Repr

/-- Lines 155-188: the caller Authorization header is popped, the server
bearer key set, the URL is the target base plus the (already rewritten)
path; query parameters and body pass through with a 30 second timeout. -/
def buildOutboundRequest (apiKey : String) (e : Event) : OutboundRequest :=
  ⟨e.httpMethod, TARGET_URL ++ e.path,
   hset (hpop e.headers "Authorization") "Authorization" ("Bearer " ++ apiKey),
   e.queryStringParameters, bodyData e.body, 30⟩

/-- Lines 194-360: classification of the upstream outcome into the Lambda
response. -/
def proxyResponse (ur : UpstreamResult) : Response :=
  match ur with
  | .ok status respHeaders text jsonMessage =>
    if status = 401 then
      ⟨401, ctProxyCors, .jsonObj
        [("error", "Invalid API key"),
         ("details", "The RepairShopr API key is invalid, expired, or does not have the required permissions."),
         ("suggestion", "Please check your API key in the Lambda environment variables and ensure it has the correct permissions.")]⟩
    else if status = 403 then
      ⟨403, ctProxyCors, .jsonObj
        [("error", "Insufficient permissions"),
         ("details", "The RepairShopr API key does not have the required permissions for this operation."),
         ("suggestion", "Please check your API key permissions in RepairShopr.")]⟩
    else if status = 404 then
      ⟨404, ctProxyCors, .jsonObj
        [("error", "API endpoint not found"),
         ("details", "The requested RepairShopr API endpoint was not found."),
         ("suggestion", "Please check the API endpoint URL.")]⟩
    else if 400 ≤ status then
      ⟨status, ctProxyCors, .jsonObj
        [("error", "RepairShopr API error (" ++ toString status ++ ")"),
         ("details", match jsonMessage with | some (some m) => m | _ => text),
         ("suggestion", "Please check the RepairShopr API documentation for this error.")]⟩
    else
      ⟨status, hupdate respHeaders proxyCors, .text text⟩
  | .connError msg =>
    ⟨502, ctProxyCors, .jsonObj
      [("error", "Connection failed"),
       ("details", "Connection error to RepairShopr API: " ++ msg),
       ("suggestion", "Check if the RepairShopr API is accessible and the URL is correct.")]⟩
  | .timeout msg =>
    ⟨504, ctProxyCors, .jsonObj
      [("error", "Request timeout"),
       ("details", "Request timeout to RepairShopr API: " ++ msg),
       ("suggestion", "The RepairShopr API is taking too long to respond.")]⟩
  | .httpError msg =>
    ⟨502, ctProxyCors, .jsonObj
      [("error", "HTTP error from RepairShopr API"),
       ("details", "HTTP error from RepairShopr API: " ++ msg),
       ("suggestion", "Check if the API key is correct and has proper permissions.")]⟩
  | .unexpected msg =>
    ⟨500, ctProxyCors, .jsonObj
      [("error", "Internal server error"),
       ("details", "Unexpected error: " ++ msg),
       ("suggestion", "Check the Lambda logs for more details.")]⟩

/-- Lines 152-360: the proxy handler builds the outbound request and maps
the single upstream attempt (no retry) to a response; every caught
exception becomes a structured response, none propagates. -/
def handle_repairshopr_proxy (apiKey : String) (e : Event) (ur : UpstreamResult) :
    OutboundRequest × Response :=
  (buildOutboundRequest apiKey e, proxyResponse ur)

/-- Outcomes of the external collaborator calls the code swallows or
branches on: the single upstream HTTP attempt, which group-removal calls
fail (warned and skipped), whether the update add-to-group call raises, and
whether the invite add-to-group call fails (warned and ignored). -/
structure Oracles where
  upstream : UpstreamResult
  removeFails : String → Bool
  addFails : Bool
  inviteAddFails : Bool

/-- The message of the NameError raised when an except clause of
handle_user_invitation references the unbound local cognito (quote
characters omitted). -/
def cognitoUnboundMsg : String := "name cognito is not defined"

/-- Modelled exception text for iterating a non-iterable groups value. -/
def notIterableMsg : String := "int object is not iterable"

/-- Modelled exception text for directory calls on a missing user. -/
def userNotFoundMsg : String := "User does not exist."

/-- Modelled exception text for a json.loads failure caught in a handler. -/
def jsonDecodeMsg : String := "Expecting value: line 1 column 1 (char 0)"

/-- Modelled exception text for a failing add-to-group call. -/
def addGroupFailMsg : String := "Group does not exist."

/-- Lines 77-150.  An exception raised before line 101 binds the local
cognito (a json.loads failure, or iterating a non-list groups value) makes
the first except clause itself raise NameError, which propagates to the
router; that is the .error outcome.  admin_create_user on an existing
username (any status) raises UsernameExistsException, caught as 409 with no
directory mutation; otherwise the entry is created and added to the default
group (an add failure is only warned about). -/
def handle_user_invitation (o : Oracles) (dir : Directory) (e : Event) :
    Except String (Response × Directory) :=
  match parseBody e.body with
  | Option.none => .error cognitoUnboundMsg
  | some fields =>
    let email := (lookupField fields "email").getD ""
    if email = "" then .ok (jsonError 400 "Email is required", dir)
    else
      match get_user_groups_from_event e.groupsClaim with
      | .list user_groups =>
        if !(can_invite_users user_groups) then
          .ok (jsonError 403 "Insufficient permissions to invite users", dir)
        else if dirHas dir email then
          .ok (jsonError 409 "User with this email already exists", dir)
        else
          let newUser : DirUser := ⟨.FORCE_CHANGE_PASSWORD, true, some email, []⟩
          let dir1 := dir ++ [(email, newUser)]
          let default_group := get_default_group_for_inviter user_groups
          let dir2 := if o.inviteAddFails then dir1 else dirAddGroup dir1 email default_group
          .ok (⟨200, ctJson, .inviteBody ("Invitation sent successfully to " ++ email) email⟩, dir2)
      | _ => .error cognitoUnboundMsg

/-- Lines 407-466: authorization, then a 60-entry-capped listing with
best-effort per-user group lookups; any internal exception is caught by the
handler itself as a 500. -/
def handle_list_users (dir : Directory) (e : Event) : Response × Directory :=
  match get_user_groups_from_event e.groupsClaim with
  | .list user_groups =>
    if !(can_manage_users user_groups) then
      (jsonError 403 "Insufficient permissions to view users", dir)
    else
      let users := (dir.take 60).map (fun p => UserSummary.mk p.1 p.2.email p.2.enabled p.2.groups)
      (⟨200, ctJson, .usersBody users⟩, dir)
  | _ => (jsonError 500 ("Failed to list users: " ++ notIterableMsg), dir)

/-- Lines 468-531: authorization, validation, then removal from each current
group (failures warned and skipped) followed by the add to the new group (a
failure there is caught by the outer handler as 500, after the removals
already happened). -/
def handle_update_user_group (o : Oracles) (dir : Directory) (e : Event) :
    Response × Directory :=
  match get_user_groups_from_event e.groupsClaim with
  | .list user_groups =>
    if !(can_manage_users user_groups) then
      (jsonError 403 "Insufficient permissions to manage users", dir)
    else
      match parseBody e.body with
      | Option.none => (jsonError 500 ("Failed to update user group: " ++ jsonDecodeMsg), dir)
      | some fields =>
        let username := (lookupField fields "username").getD ""
        let new_group := (lookupField fields "group").getD ""
        if username = "" ∨ new_group = "" then
          (jsonError 400 "Username and group are required", dir)
        else
          match dirLookup dir username with
          | Option.none => (jsonError 500 ("Failed to update user group: " ++ userNotFoundMsg), dir)
          | some du =>
            let kept := du.groups.filter (fun g => o.removeFails g)
            let dir1 := dirSetGroups dir username kept
            if o.addFails then
              (jsonError 500 ("Failed to update user group: " ++ addGroupFailMsg), dir1)
            else
              (⟨200, ctJson, .jsonObj [("message", "User " ++ username ++ " moved to group " ++ new_group)]⟩,
               dirAddGroup dir1 username new_group)
  | _ => (jsonError 500 ("Failed to update user group: " ++ notIterableMsg), dir)

/-- Lines 533-591: authorization, validation, best-effort group removal,
then deletion (fatal on failure, here: on a missing user). -/
def handle_remove_user (dir : Directory) (e : Event) : Response × Directory :=
  match get_user_groups_from_event e.groupsClaim with
  | .list user_groups =>
    if !(can_manage_users user_groups) then
      (jsonError 403 "Insufficient permissions to remove users", dir)
    else
      match parseBody e.body with
      | Option.none => (jsonError 500 ("Failed to remove user: " ++ jsonDecodeMsg), dir)
      | some fields =>
        let username := (lookupField fields "username").getD ""
        if username = "" then
          (jsonError 400 "Username is required", dir)
        else if dirHas dir username then
          (⟨200, ctJson, .jsonObj [("message", "User " ++ username ++ " removed successfully")]⟩,
           dirDelete dir username)
        else
          (jsonError 500 ("Failed to remove user: " ++ userNotFoundMsg), dir)
  | _ => (jsonError 500 ("Failed to remove user: " ++ notIterableMsg), dir)

/-- Lines 609-648: stub that validates and logs only. -/
def handle_send_otp (dir : Directory) (e : Event) : Response × Directory :=
  match parseBody e.body with
  | Option.none => (jsonError 500 ("Failed to send OTP: " ++ jsonDecodeMsg), dir)
  | some fields =>
    let email := (lookupField fields "email").getD ""
    if email = "" then (jsonError 400 "Email is required", dir)
    else (⟨200, ctJson, .jsonObj [("message", "OTP sent successfully")]⟩, dir)

/-- Lines 650-685: stub that always reports success for well-formed input. -/
def handle_verify_otp (dir : Directory) (e : Event) : Response × Directory :=
  match parseBody e.body with
  | Option.none => (jsonError 500 ("Failed to verify OTP: " ++ jsonDecodeMsg), dir)
  | some fields =>
    let email := (lookupField fields "email").getD ""
    let otp := (lookupField fields "otp").getD ""
    if email = "" ∨ otp = "" then (jsonError 400 "Email and OTP are required", dir)
    else (⟨200, ctJson, .jsonObj [("message", "OTP verified successfully")]⟩, dir)

/-- Lines 53-56: paths starting with the passthrough path start are
rewritten by removing the first four characters before proxying; all other
proxied paths pass through unchanged. -/
def routedProxyEvent (e : Event) : Event :=
  if strStartsWith e.path "/api" then { e with path := strDrop e.path 4 } else e

/-- Lines 34-59: the dispatch inside the router try block; .error carries
the message of an exception escaping the chosen handler. -/
def dispatchEvent (apiKey : String) (o : Oracles) (dir : Directory) (e : Event) :
    Except String (Response × Directory) :=
  if e.path = "/invite-user" ∧ e.httpMethod = "POST" then handle_user_invitation o dir e
  else if e.path = "/users" ∧ e.httpMethod = "GET" then .ok (handle_list_users dir e)
  else if e.path = "/update-user-group" ∧ e.httpMethod = "POST" then .ok (handle_update_user_group o dir e)
  else if e.path = "/remove-user" ∧ e.httpMethod = "POST" then .ok (handle_remove_user dir e)
  else if e.path = "/send-otp" ∧ e.httpMethod = "POST" then .ok (handle_send_otp dir e)
  else if e.path = "/verify-otp" ∧ e.httpMethod = "POST" then .ok (handle_verify_otp dir e)
  else .ok ((handle_repairshopr_proxy apiKey (routedProxyEvent e) o.upstream).2, dir)

/-- Lines 21-75: OPTIONS preflight short-circuit, dispatch, and the
catch-all 500 whose headers are Content-Type updated with the CORS set. -/
def lambda_handler (apiKey : String) (o : Oracles) (dir : Directory) (e : Event) :
    Response × Directory :=
  if e.httpMethod = "OPTIONS" then
    (⟨200, get_cors_headers, .text ""⟩, dir)
  else
    match dispatchEvent apiKey o dir e with
    | .ok rd => rd
    | .error m =>
      (⟨500, hupdate ctJson get_cors_headers,
        .jsonObj [("error", "Internal server error: " ++ m),
                  ("details", "An unexpected error occurred in the Lambda function."),
                  ("suggestion", "Check the Lambda logs for more details.")]⟩, dir)

/-- The six administrative route matches of the dispatch chain. -/
def routeIsAdmin (e : Event) : Prop :=
  (e.path = "/invite-user" ∧ e.httpMethod = "POST") ∨
  (e.path = "/users" ∧ e.httpMethod = "GET") ∨
  (e.path = "/update-user-group" ∧ e.httpMethod = "POST") ∨
  (e.path = "/remove-user" ∧ e.httpMethod = "POST") ∨
  (e.path = "/send-otp" ∧ e.httpMethod = "POST") ∨
  (e.path = "/verify-otp" ∧ e.httpMethod = "POST")

/-- A benign oracle: upstream answers 200, no collaborator call fails. -/
def oracleNone : Oracles :=
  ⟨.ok 200 [] "hello" Option.none, fun _ => false, false, false⟩

/-- A GET on a path matched by no route and without the passthrough start. -/
def evC1 : Event := ⟨"GET", "/unknown", [], Option.none, .absent, .absent⟩

/-- An OPTIONS preflight on an arbitrary path. -/
def evC2opts : Event := ⟨"OPTIONS", "/anything", [], Option.none, .absent, .absent⟩

/-- An authorized invite request whose body is present but not valid JSON. -/
def evC2badJson : Event :=
  ⟨"POST", "/invite-user", [], Option.none, .strVal "not json" Option.none,
   .list ["TrueTickets-Cacell-Owner"]⟩

/-- An authorized invite request with no email field in the body. -/
def evC2noEmail : Event :=
  ⟨"POST", "/invite-user", [], Option.none, .absent, .list ["TrueTickets-Cacell-Owner"]⟩

/-- A directory holding a stale invite: one entry still in
FORCE_CHANGE_PASSWORD status. -/
def dirC3 : Directory :=
  [("a@b.c", ⟨.FORCE_CHANGE_PASSWORD, true, some "a@b.c", ["TrueTickets-Cacell-Employee"]⟩)]

/-- An authorized invite request for the email of the stale entry. -/
def evC3 : Event :=
  ⟨"POST", "/invite-user", [], Option.none, .strVal "x" (some [("email", "a@b.c")]),
   .list ["TrueTickets-Cacell-Owner"]⟩

/-- A passthrough request with a caller Authorization header and a query. -/
def evC5 : Event :=
  ⟨"GET", "/api/clients", [("Authorization", "Bearer caller-token")], some [("id", "5")],
   .absent, .absent⟩

/-- A proxied event used for upstream-classification theorems. -/
def evC6 : Event := ⟨"GET", "/tickets", [], Option.none, .absent, .absent⟩

/-- An upstream 422 whose body is not JSON. -/
def urC6 : UpstreamResult := .ok 422 [] "oops" Option.none

/-- A directory with one entry in two groups. -/
def dirC9 : Directory := [("u", ⟨.CONFIRMED, true, some "u@x", ["A", "B"]⟩)]

/-- An oracle under which removal from group A fails and is swallowed. -/
def oC9 : Oracles := ⟨.ok 200 [] "" Option.none, fun g => g == "A", false, false⟩

/-- An authorized update-group request moving entry u to group C. -/
def evC9 : Event :=
  ⟨"POST", "/update-user-group", [], Option.none,
   .strVal "x" (some [("username", "u"), ("group", "C")]),
   .list ["TrueTickets-Cacell-Owner"]⟩

/-- The directory of dirC9 with all removals succeeding: used as the
well-behaved update-group scenario. -/
def dirC9w : Directory := [("u", ⟨.CONFIRMED, true, some "u@x", ["A", "B"]⟩)]

/-- A directory whose entry is already exactly in group C. -/
def dirC9idem : Directory := [("u", ⟨.CONFIRMED, true, some "u@x", ["C"]⟩)]

/-- An authorized invite request whose body fails JSON decoding. -/
def evC10 : Event :=
  ⟨"POST", "/invite-user", [], Option.none, .strVal "also not json" Option.none,
   .list ["TrueTickets-Cacell-Owner"]⟩

deriving instance DecidableEq for Except

/- ===================== theorems ===================== -/

/-- Every pair surviving a pop of key k has a key different from k. -/
theorem hpop_no_key (h : Headers) (k : String) (p : String × String)
    (hp : p ∈ hpop h k) : (p.1 == k) = false := by
  have h2 := List.mem_filter.mp hp
  simpa using h2.2

/-- Setting key k on a map from which k was popped appends the pair. -/
theorem hset_hpop_eq (h : Headers) (k v : String) :
    hset (hpop h k) k v = hpop h k ++ [(k, v)] := by
  unfold hset
  rw [if_neg]
  intro hcontra
  rw [List.any_eq_true] at hcontra
  obtain ⟨p, hp, hpk⟩ := hcontra
  have hfalse := hpop_no_key h k p hp
  rw [hfalse] at hpk
  exact Bool.false_ne_true hpk

/-- Lookup of k in a map with no k key followed by the pair (k, v). -/
theorem hget_append_single (l : Headers) (k v : String)
    (hl : ∀ p ∈ l, (p.1 == k) = false) : hget (l ++ [(k, v)]) k = some v := by
  induction l with
  | nil => simp [hget, List.find?]
  | cons p t ih =>
    have hp := hl p (by simp)
    unfold hget at *
    rw [List.cons_append, List.find?_cons, hp]
    exact ih (fun q hq => hl q (by simp [hq]))

/-- Looking up the edited user after a group-list replacement. -/
theorem dirLookup_dirSetGroups_self (dir : Directory) (u : String) (gs : List String) :
    dirLookup (dirSetGroups dir u gs) u =
      (dirLookup dir u).map (fun du => { du with groups := gs }) := by
  induction dir with
  | nil => rfl
  | cons p t ih =>
    unfold dirLookup dirSetGroups
    unfold dirLookup dirSetGroups at ih
    rw [List.map_cons, List.find?_cons, List.find?_cons]
    cases hpu : (p.1 == u) with
    | true => simp [hpu]
    | false => simpa [hpu] using ih

/-- Looking up the edited user after a group addition. -/
theorem dirLookup_dirAddGroup_self (dir : Directory) (u g : String) :
    dirLookup (dirAddGroup dir u g) u =
      (dirLookup dir u).map (fun du =>
        { du with groups := if du.groups.contains g then du.groups else du.groups ++ [g] }) := by
  induction dir with
  | nil => rfl
  | cons p t ih =>
    unfold dirLookup dirAddGroup
    unfold dirLookup dirAddGroup at ih
    rw [List.map_cons, List.find?_cons, List.find?_cons]
    cases hpu : (p.1 == u) with
    | true => simp [hpu]
    | false => simpa [hpu] using ih

/-- C4: can_invite_users is true exactly when the groups contain
ApplicationAdmin, Owner or Manager; can_manage_users is true exactly when
they contain ApplicationAdmin or Owner; both are pure functions of the
group list, Manager may invite but not manage, and both deny the empty
set. -/
theorem c4_authorization_policy :
    (∀ gs : List String, can_invite_users gs = true ↔
      ("TrueTickets-Cacell-ApplicationAdmin" ∈ gs ∨ "TrueTickets-Cacell-Owner" ∈ gs ∨
       "TrueTickets-Cacell-Manager" ∈ gs)) ∧
    (∀ gs : List String, can_manage_users gs = true ↔
      ("TrueTickets-Cacell-ApplicationAdmin" ∈ gs ∨ "TrueTickets-Cacell-Owner" ∈ gs)) ∧
    can_invite_users ["TrueTickets-Cacell-Manager"] = true ∧
    can_manage_users ["TrueTickets-Cacell-Manager"] = false ∧
    can_invite_users [] = false ∧
    can_manage_users [] = false := by
  refine ⟨?_, ?_, by decide, by decide, by decide, by decide⟩
  · intro gs
    simp only [can_invite_users, List.any_eq_true]
    constructor
    · rintro ⟨g, hg, hmem⟩
      simp only [List.contains_cons, List.contains_nil, Bool.or_eq_true, beq_iff_eq,
        or_false, Bool.false_eq_true] at hmem
      rcases hmem with rfl | rfl | rfl
      · exact Or.inl hg
      · exact Or.inr (Or.inl hg)
      · exact Or.inr (Or.inr hg)
    · rintro (h | h | h)
      · exact ⟨_, h, by decide⟩
      · exact ⟨_, h, by decide⟩
      · exact ⟨_, h, by decide⟩
  · intro gs
    simp only [can_manage_users, List.any_eq_true]
    constructor
    · rintro ⟨g, hg, hmem⟩
      simp only [List.contains_cons, List.contains_nil, Bool.or_eq_true, beq_iff_eq,
        or_false, Bool.false_eq_true] at hmem
      rcases hmem with rfl | rfl
      · exact Or.inl hg
      · exact Or.inr hg
    · rintro (h | h)
      · exact ⟨_, h, by decide⟩
      · exact ⟨_, h, by decide⟩

/-- C7: a connection error from the upstream call yields a 502 and a
timeout a 504, each with a JSON body carrying the error, details and
suggestion fields; the forwarder returns a structured response for every
transport failure (it is a total function of the single upstream attempt,
so no exception propagates and no retry happens). -/
theorem c7_transport_failure (apiKey : String) (e : Event) (m1 m2 : String) :
    ((handle_repairshopr_proxy apiKey e (.connError m1)).2.statusCode = 502 ∧
     hasField (handle_repairshopr_proxy apiKey e (.connError m1)).2.body "error" = true ∧
     hasField (handle_repairshopr_proxy apiKey e (.connError m1)).2.body "details" = true ∧
     hasField (handle_repairshopr_proxy apiKey e (.connError m1)).2.body "suggestion" = true) ∧
    ((handle_repairshopr_proxy apiKey e (.timeout m2)).2.statusCode = 504 ∧
     hasField (handle_repairshopr_proxy apiKey e (.timeout m2)).2.body "error" = true ∧
     hasField (handle_repairshopr_proxy apiKey e (.timeout m2)).2.body "details" = true ∧
     hasField (handle_repairshopr_proxy apiKey e (.timeout m2)).2.body "suggestion" = true) :=
  ⟨⟨rfl, rfl, rfl, rfl⟩, ⟨rfl, rfl, rfl, rfl⟩⟩

/-- C8 counterexample: the extraction keeps empty and untrimmed entries
produced by the comma split, and returns an unrecognized (integer) claim
value unchanged instead of an empty set; the spec-side extraction disagrees
on both inputs. -/
theorem c8_counterexample :
    get_user_groups_from_event (GroupsVal.str "a,") = GroupsVal.list ["a", ""] ∧
    get_user_groups_from_event (GroupsVal.str " x ,y") = GroupsVal.list [" x ", "y"] ∧
    get_user_groups_from_event (GroupsVal.intVal 7) = GroupsVal.intVal 7 ∧
    extract_spec (GroupsVal.str "a,") = ["a"] ∧
    extract_spec (GroupsVal.str " x ,y") = ["x", "y"] ∧
    extract_spec (GroupsVal.intVal 7) = [] := by decide

/-- C8 as amended: the extraction is a total function (never raises); it
returns the split untrimmed and with empty entries kept, and passes
non-list values through unchanged, but trimming every entry, dropping the
empty ones and defaulting non-list outputs to the empty list recovers
exactly the extraction the spec describes. -/
theorem c8_extraction_refines_spec (v : GroupsVal) :
    normalizeGroups (get_user_groups_from_event v) = extract_spec v ∧
    get_user_groups_from_event GroupsVal.absent = GroupsVal.list [] := by
  constructor
  · cases v <;> rfl
  · rfl

/-- C1 counterexample: a GET on a path matching no route, not an OPTIONS
preflight and without the passthrough path start, is answered with the
upstream proxy result (here 200), not with a 405. -/
theorem c1_counterexample :
    evC1.httpMethod ≠ "OPTIONS" ∧
    strStartsWith evC1.path "/api" = false ∧
    (lambda_handler "server-key" oracleNone [] evC1).1.statusCode = 200 ∧
    (lambda_handler "server-key" oracleNone [] evC1).1.statusCode ≠ 405 := by decide

/-- C1 as amended: a request matching none of the six administrative
routes, not an OPTIONS preflight and whose path does not begin with the
passthrough path start, is forwarded unchanged to the upstream proxy
handler (backward-compatibility passthrough); the router has no 405
default. -/
theorem c1_unmatched_goes_to_proxy (apiKey : String) (o : Oracles) (dir : Directory)
    (e : Event)
    (hm : e.httpMethod ≠ "OPTIONS")
    (h1 : ¬(e.path = "/invite-user" ∧ e.httpMethod = "POST"))
    (h2 : ¬(e.path = "/users" ∧ e.httpMethod = "GET"))
    (h3 : ¬(e.path = "/update-user-group" ∧ e.httpMethod = "POST"))
    (h4 : ¬(e.path = "/remove-user" ∧ e.httpMethod = "POST"))
    (h5 : ¬(e.path = "/send-otp" ∧ e.httpMethod = "POST"))
    (h6 : ¬(e.path = "/verify-otp" ∧ e.httpMethod = "POST"))
    (h7 : strStartsWith e.path "/api" = false) :
    lambda_handler apiKey o dir e = ((handle_repairshopr_proxy apiKey e o.upstream).2, dir) := by
  unfold lambda_handler dispatchEvent routedProxyEvent
  rw [if_neg hm, if_neg h1, if_neg h2, if_neg h3, if_neg h4, if_neg h5, if_neg h6,
    if_neg (by simp [h7])]

/-- C1 witness: the amended routing fact at the concrete unmatched request. -/
theorem c1_witness :
    lambda_handler "server-key" oracleNone [] evC1 =
      ((handle_repairshopr_proxy "server-key" evC1 oracleNone.upstream).2, []) :=
  c1_unmatched_goes_to_proxy "server-key" oracleNone [] evC1 (by decide) (by decide)
    (by decide) (by decide) (by decide) (by decide) (by decide) (by decide)

/-- C10: when the invite-user body fails JSON decoding, the handler raises
out of its own try block (the conflict except clause references the local
cognito before it is bound), so the router converts the failure to a 500
rather than a 400. -/
theorem c10_bad_json_invite_500 (apiKey : String) (o : Oracles) (dir : Directory)
    (e : Event)
    (hp : e.path = "/invite-user") (hm : e.httpMethod = "POST")
    (hb : parseBody e.body = Option.none) :
    handle_user_invitation o dir e = .error cognitoUnboundMsg ∧
    (lambda_handler apiKey o dir e).1.statusCode = 500 ∧
    (lambda_handler apiKey o dir e).1.statusCode ≠ 400 := by
  have hinv : handle_user_invitation o dir e = .error cognitoUnboundMsg := by
    unfold handle_user_invitation
    rw [hb]
  have hM : e.httpMethod ≠ "OPTIONS" := by rw [hm]; decide
  have hd : dispatchEvent apiKey o dir e = .error cognitoUnboundMsg := by
    unfold dispatchEvent
    rw [if_pos ⟨hp, hm⟩]
    exact hinv
  unfold lambda_handler
  rw [if_neg hM, hd]
  refine ⟨hinv, rfl, ?_⟩
  dsimp only
  decide

/-- C10 witness: the concrete malformed-body invite request is answered
with a 500 by the router. -/
theorem c10_witness :
    (lambda_handler "server-key" oracleNone [] evC10).1.statusCode = 500 :=
  (c10_bad_json_invite_500 "server-key" oracleNone [] evC10 rfl rfl rfl).2.1

/-- C5 counterexample: the outbound request built for a passthrough call
carries no Accept header at all (the code never sets Accept:
application/json), even though the caller Authorization header is replaced
by the server bearer key as claimed. -/
theorem c5_counterexample :
    hget (handle_repairshopr_proxy "server-key" (routedProxyEvent evC5)
      (.ok 200 [] "" Option.none)).1.headers "Accept" = Option.none ∧
    hget evC5.headers "Authorization" = some "Bearer caller-token" ∧
    hget (handle_repairshopr_proxy "server-key" (routedProxyEvent evC5)
      (.ok 200 [] "" Option.none)).1.headers "Authorization" = some "Bearer server-key" := by
  decide

/-- C5 as amended: for every request whose path begins with the passthrough
path start, the outbound request URL is the upstream base plus the path
with its first four characters removed, the query parameters are carried
along, every Authorization header value sent is the server bearer key (the
caller-supplied value is discarded), and the body passes through
unmodified.  No Accept header is added. -/
theorem c5_outbound_request (apiKey : String) (e : Event) (ur : UpstreamResult)
    (hp : strStartsWith e.path "/api" = true) :
    (handle_repairshopr_proxy apiKey (routedProxyEvent e) ur).1.url =
      TARGET_URL ++ strDrop e.path 4 ∧
    hget (handle_repairshopr_proxy apiKey (routedProxyEvent e) ur).1.headers "Authorization" =
      some ("Bearer " ++ apiKey) ∧
    (∀ p ∈ (handle_repairshopr_proxy apiKey (routedProxyEvent e) ur).1.headers,
      p.1 = "Authorization" → p.2 = "Bearer " ++ apiKey) ∧
    (handle_repairshopr_proxy apiKey (routedProxyEvent e) ur).1.data = bodyData e.body ∧
    (handle_repairshopr_proxy apiKey (routedProxyEvent e) ur).1.params =
      e.queryStringParameters := by
  unfold handle_repairshopr_proxy buildOutboundRequest routedProxyEvent
  rw [if_pos hp]
  refine ⟨rfl, ?_, ?_, rfl, rfl⟩
  · rw [hset_hpop_eq]
    exact hget_append_single _ _ _ (fun p hp2 => hpop_no_key _ _ p hp2)
  · intro p hp2 hk
    rw [hset_hpop_eq] at hp2
    rcases List.mem_append.mp hp2 with h1 | h2
    · have hfalse := hpop_no_key e.headers "Authorization" p h1
      rw [hk] at hfalse
      simp at hfalse
    · simp only [List.mem_singleton] at h2
      rw [h2]

/-- C5 witness: the amended forwarding fact evaluated at the concrete
passthrough request with a query parameter and a caller token. -/
theorem c5_witness :
    (handle_repairshopr_proxy "server-key" (routedProxyEvent evC5)
      (.ok 200 [] "" Option.none)).1.url = "https://Cacell.repairshopr.com/api/v1/clients" ∧
    (handle_repairshopr_proxy "server-key" (routedProxyEvent evC5)
      (.ok 200 [] "" Option.none)).1.params = some [("id", "5")] := by
  have h := c5_outbound_request "server-key" evC5 (.ok 200 [] "" Option.none) (by decide)
  exact ⟨h.1.trans (by decide), h.2.2.2.2.trans (by decide)⟩

/-- C6 counterexample: an upstream 422 keeps its status but its body is
replaced by a diagnostic envelope instead of being passed through as-is,
contradicting the claim that only 401, 403 and 404 gain diagnostic
detail. -/
theorem c6_counterexample :
    (handle_repairshopr_proxy "server-key" evC6 urC6).2.statusCode = 422 ∧
    (handle_repairshopr_proxy "server-key" evC6 urC6).2.body ≠ RespBody.text "oops" ∧
    (handle_repairshopr_proxy "server-key" evC6 urC6).2.body =
      RespBody.jsonObj
        [("error", "RepairShopr API error (422)"),
         ("details", "oops"),
         ("suggestion", "Please check the RepairShopr API documentation for this error.")] := by
  decide

/-- C6 as amended: every received upstream HTTP response is answered with
the same status code; responses below 400 pass headers (merged with CORS)
and body through verbatim; 401, 403 and 404 receive fixed diagnostic
bodies; and every other status of at least 400 has its body wrapped in a
diagnostic envelope quoting the upstream message or text — so bodies are
rewritten for all error statuses, while the status itself is never altered
or swallowed. -/
theorem c6_status_preserved (apiKey : String) (e : Event) (st : Nat) (hs : Headers)
    (tx : String) (jm : Option (Option String)) :
    (handle_repairshopr_proxy apiKey e (.ok st hs tx jm)).2.statusCode = st ∧
    (st < 400 → (handle_repairshopr_proxy apiKey e (.ok st hs tx jm)).2 =
      ⟨st, hupdate hs proxyCors, .text tx⟩) ∧
    (400 ≤ st → st ≠ 401 → st ≠ 403 → st ≠ 404 →
      (handle_repairshopr_proxy apiKey e (.ok st hs tx jm)).2.body =
        RespBody.jsonObj
          [("error", "RepairShopr API error (" ++ toString st ++ ")"),
           ("details", match jm with | some (some m) => m | _ => tx),
           ("suggestion", "Please check the RepairShopr API documentation for this error.")]) := by
  unfold handle_repairshopr_proxy proxyResponse
  refine ⟨?_, ?_, ?_⟩
  · by_cases h1 : st = 401
    · simp [h1]
    · by_cases h2 : st = 403
      · simp [h2]
      · by_cases h3 : st = 404
        · simp [h3]
        · by_cases h4 : 400 ≤ st
          · simp [h1, h2, h3, h4]
          · simp [h1, h2, h3, h4]
  · intro hlt
    have h1 : st ≠ 401 := by omega
    have h2 : st ≠ 403 := by omega
    have h3 : st ≠ 404 := by omega
    have h4 : ¬ 400 ≤ st := by omega
    simp [h1, h2, h3, h4]
  · intro hge h1 h2 h3
    simp [h1, h2, h3, hge]

/-- C6 witness: status preservation and verbatim passthrough at a concrete
2xx, and status preservation at a concrete unlisted error status. -/
theorem c6_witness :
    (handle_repairshopr_proxy "server-key" evC6
      (.ok 200 [("X-Rate", "9")] "okbody" Option.none)).2 =
      ⟨200, hupdate [("X-Rate", "9")] proxyCors, .text "okbody"⟩ ∧
    (handle_repairshopr_proxy "server-key" evC6 (.ok 422 [] "oops" Option.none)).2.statusCode =
      422 := by
  constructor
  · exact (c6_status_preserved "server-key" evC6 200 [("X-Rate", "9")] "okbody"
      Option.none).2.1 (by omega)
  · exact (c6_status_preserved "server-key" evC6 422 [] "oops" Option.none).1

/-- Every outcome of the invite handler that returns (rather than raises)
carries only the Content-Type header. -/
theorem invite_headers_ct (o : Oracles) (dir : Directory) (e : Event) (r : Response)
    (d : Directory) (h : handle_user_invitation o dir e = .ok (r, d)) :
    r.headers = ctJson := by
  unfold handle_user_invitation at h
  dsimp only at h
  split at h <;> (try split at h) <;> (try split at h) <;> (try split at h) <;>
    (try split at h) <;> (try split at h)
  all_goals
    first
    | (injection h with h0; injection h0 with h1 h2; subst h1; rfl)
    | (injection h)

/-- Every outcome of the list-users handler carries only Content-Type. -/
theorem list_users_headers_ct (dir : Directory) (e : Event) (r : Response) (d : Directory)
    (h : handle_list_users dir e = (r, d)) : r.headers = ctJson := by
  unfold handle_list_users at h
  dsimp only at h
  split at h <;> (try split at h)
  all_goals (injection h with h1 h2; subst h1; rfl)

/-- Every outcome of the update-group handler carries only Content-Type. -/
theorem update_group_headers_ct (o : Oracles) (dir : Directory) (e : Event) (r : Response)
    (d : Directory) (h : handle_update_user_group o dir e = (r, d)) : r.headers = ctJson := by
  unfold handle_update_user_group at h
  dsimp only at h
  split at h <;> (try split at h) <;> (try split at h) <;> (try split at h) <;>
    (try split at h) <;> (try split at h)
  all_goals (injection h with h1 h2; subst h1; rfl)

/-- Every outcome of the remove-user handler carries only Content-Type. -/
theorem remove_user_headers_ct (dir : Directory) (e : Event) (r : Response) (d : Directory)
    (h : handle_remove_user dir e = (r, d)) : r.headers = ctJson := by
  unfold handle_remove_user at h
  dsimp only at h
  split at h <;> (try split at h) <;> (try split at h) <;> (try split at h) <;>
    (try split at h)
  all_goals (injection h with h1 h2; subst h1; rfl)

/-- Every outcome of the send-otp handler carries only Content-Type. -/
theorem send_otp_headers_ct (dir : Directory) (e : Event) (r : Response) (d : Directory)
    (h : handle_send_otp dir e = (r, d)) : r.headers = ctJson := by
  unfold handle_send_otp at h
  dsimp only at h
  split at h <;> (try split at h)
  all_goals (injection h with h1 h2; subst h1; rfl)

/-- Every outcome of the verify-otp handler carries only Content-Type. -/
theorem verify_otp_headers_ct (dir : Directory) (e : Event) (r : Response) (d : Directory)
    (h : handle_verify_otp dir e = (r, d)) : r.headers = ctJson := by
  unfold handle_verify_otp at h
  dsimp only at h
  split at h <;> (try split at h)
  all_goals (injection h with h1 h2; subst h1; rfl)

/-- C2 as amended: the full CORS header set is attached only by the router
itself — on the OPTIONS preflight response and on the catch-all 500 for a
handler that raised; every response produced by the six administrative
handlers carries only Content-Type: application/json and no CORS headers
(proxy responses carry three CORS headers but not Access-Control-Max-Age,
per the proxy definitions). -/
theorem c2_cors_only_at_router :
    (∀ (apiKey : String) (o : Oracles) (dir : Directory) (e : Event),
      e.httpMethod = "OPTIONS" →
      (lambda_handler apiKey o dir e).1.headers = get_cors_headers) ∧
    (∀ (apiKey : String) (o : Oracles) (dir : Directory) (e : Event) (m : String),
      e.httpMethod ≠ "OPTIONS" → dispatchEvent apiKey o dir e = .error m →
      (lambda_handler apiKey o dir e).1.headers = hupdate ctJson get_cors_headers) ∧
    (∀ (apiKey : String) (o : Oracles) (dir : Directory) (e : Event) (r : Response)
      (d : Directory),
      routeIsAdmin e → dispatchEvent apiKey o dir e = .ok (r, d) →
      r.headers = ctJson) := by
  refine ⟨?_, ?_, ?_⟩
  · intro apiKey o dir e hm
    unfold lambda_handler
    rw [if_pos hm]
  · intro apiKey o dir e m hm hd
    unfold lambda_handler
    rw [if_neg hm, hd]
  · intro apiKey o dir e r d hroute hd
    unfold dispatchEvent at hd
    rcases hroute with hr | hr | hr | hr | hr | hr
    · rw [if_pos hr] at hd
      exact invite_headers_ct o dir e r d hd
    · rw [if_neg (by rintro ⟨hc, -⟩; rw [hr.1] at hc; exact absurd hc (by decide)),
        if_pos hr] at hd
      exact list_users_headers_ct dir e r d (Except.ok.inj hd)
    · rw [if_neg (by rintro ⟨hc, -⟩; rw [hr.1] at hc; exact absurd hc (by decide)),
        if_neg (by rintro ⟨hc, -⟩; rw [hr.1] at hc; exact absurd hc (by decide)),
        if_pos hr] at hd
      exact update_group_headers_ct o dir e r d (Except.ok.inj hd)
    · rw [if_neg (by rintro ⟨hc, -⟩; rw [hr.1] at hc; exact absurd hc (by decide)),
        if_neg (by rintro ⟨hc, -⟩; rw [hr.1] at hc; exact absurd hc (by decide)),
        if_neg (by rintro ⟨hc, -⟩; rw [hr.1] at hc; exact absurd hc (by decide)),
        if_pos hr] at hd
      exact remove_user_headers_ct dir e r d (Except.ok.inj hd)
    · rw [if_neg (by rintro ⟨hc, -⟩; rw [hr.1] at hc; exact absurd hc (by decide)),
        if_neg (by rintro ⟨hc, -⟩; rw [hr.1] at hc; exact absurd hc (by decide)),
        if_neg (by rintro ⟨hc, -⟩; rw [hr.1] at hc; exact absurd hc (by decide)),
        if_neg (by rintro ⟨hc, -⟩; rw [hr.1] at hc; exact absurd hc (by decide)),
        if_pos hr] at hd
      exact send_otp_headers_ct dir e r d (Except.ok.inj hd)
    · rw [if_neg (by rintro ⟨hc, -⟩; rw [hr.1] at hc; exact absurd hc (by decide)),
        if_neg (by rintro ⟨hc, -⟩; rw [hr.1] at hc; exact absurd hc (by decide)),
        if_neg (by rintro ⟨hc, -⟩; rw [hr.1] at hc; exact absurd hc (by decide)),
        if_neg (by rintro ⟨hc, -⟩; rw [hr.1] at hc; exact absurd hc (by decide)),
        if_neg (by rintro ⟨hc, -⟩; rw [hr.1] at hc; exact absurd hc (by decide)),
        if_pos hr] at hd
      exact verify_otp_headers_ct dir e r d (Except.ok.inj hd)

/-- C2 counterexample: a validation failure (400) from the invite handler
is returned with only a Content-Type header — none of the CORS headers,
in particular no Access-Control-Allow-Origin — refuting the claim that
every response carries the full CORS set. -/
theorem c2_counterexample :
    (lambda_handler "server-key" oracleNone [] evC2noEmail).1.statusCode = 400 ∧
    (lambda_handler "server-key" oracleNone [] evC2noEmail).1.headers =
      [("Content-Type", "application/json")] ∧
    hget (lambda_handler "server-key" oracleNone [] evC2noEmail).1.headers
      "Access-Control-Allow-Origin" = Option.none := by decide

/-- C2 witness: the amended CORS-scope fact at concrete requests — the
OPTIONS preflight gets the full CORS set, a raising invite body gets the
catch-all 500 headers, and the 400 validation response of the invite
handler carries only Content-Type. -/
theorem c2_witness :
    (lambda_handler "server-key" oracleNone [] evC2opts).1.headers = get_cors_headers ∧
    (lambda_handler "server-key" oracleNone [] evC2badJson).1.headers =
      hupdate ctJson get_cors_headers ∧
    ∃ r : Response, ∃ d : Directory,
      dispatchEvent "server-key" oracleNone [] evC2noEmail = .ok (r, d) ∧
      r.headers = ctJson := by
  refine ⟨c2_cors_only_at_router.1 "server-key" oracleNone [] evC2opts rfl,
    c2_cors_only_at_router.2.1 "server-key" oracleNone [] evC2badJson cognitoUnboundMsg
      (by decide) (by decide), ?_⟩
  refine ⟨jsonError 400 "Email is required", [], by decide, ?_⟩
  exact c2_cors_only_at_router.2.2 "server-key" oracleNone [] evC2noEmail
    (jsonError 400 "Email is required") [] (Or.inl (by decide)) (by decide)

/-- C3 counterexample: an invite for an email whose existing directory
entry is still in FORCE_CHANGE_PASSWORD status returns 409 and leaves the
directory untouched — no group removal, no deletion, no re-creation. -/
theorem c3_counterexample :
    (dirLookup dirC3 "a@b.c").map (fun du => du.status) =
      some UserStatus.FORCE_CHANGE_PASSWORD ∧
    handle_user_invitation oracleNone dirC3 evC3 =
      .ok (jsonError 409 "User with this email already exists", dirC3) := by decide

/-- C3 as amended: for an authorized invite with a well-formed body and a
nonempty email, an existing directory entry for that email — regardless of
its status, including FORCE_CHANGE_PASSWORD — yields a 409 conflict with no
directory mutation (there is no stale-invite reclamation); when no entry
exists, a fresh FORCE_CHANGE_PASSWORD entry is created and added to the
inviter-derived default group. -/
theorem c3_invite_conflict_behavior (o : Oracles) (dir : Directory) (e : Event)
    (fields : List (String × String)) (gs : List String) (email : String)
    (hb : parseBody e.body = some fields)
    (he : (lookupField fields "email").getD "" = email)
    (hne : email ≠ "")
    (hg : get_user_groups_from_event e.groupsClaim = GroupsVal.list gs)
    (hcan : can_invite_users gs = true) :
    (dirHas dir email = true →
      handle_user_invitation o dir e =
        .ok (jsonError 409 "User with this email already exists", dir)) ∧
    (dirHas dir email = false → o.inviteAddFails = false →
      handle_user_invitation o dir e =
        .ok (⟨200, ctJson, .inviteBody ("Invitation sent successfully to " ++ email) email⟩,
          dirAddGroup (dir ++ [(email, ⟨.FORCE_CHANGE_PASSWORD, true, some email, []⟩)])
            email (get_default_group_for_inviter gs))) := by
  unfold handle_user_invitation
  rw [hb]
  dsimp only
  rw [he, if_neg hne, hg]
  dsimp only
  rw [hcan]
  constructor
  · intro hhas
    rw [if_neg (by decide), if_pos hhas]
  · intro hnot hadd
    rw [if_neg (by decide), if_neg (by simp [hnot]), if_neg (by simp [hadd])]

/-- C3 witness: the amended invite behavior at concrete inputs — the
existing FORCE_CHANGE_PASSWORD entry yields 409 with the directory
unchanged, and the same request against an empty directory creates one
entry that ends in exactly the default Employee group. -/
theorem c3_witness :
    handle_user_invitation oracleNone dirC3 evC3 =
      .ok (jsonError 409 "User with this email already exists", dirC3) ∧
    handle_user_invitation oracleNone [] evC3 =
      .ok (⟨200, ctJson, .inviteBody "Invitation sent successfully to a@b.c" "a@b.c"⟩,
        [("a@b.c", ⟨.FORCE_CHANGE_PASSWORD, true, some "a@b.c",
          ["TrueTickets-Cacell-Employee"]⟩)]) := by
  constructor
  · exact (c3_invite_conflict_behavior oracleNone dirC3 evC3 [("email", "a@b.c")]
      ["TrueTickets-Cacell-Owner"] "a@b.c" (by decide) (by decide) (by decide) (by decide)
      (by decide)).1 (by decide)
  · have h := (c3_invite_conflict_behavior oracleNone [] evC3 [("email", "a@b.c")]
      ["TrueTickets-Cacell-Owner"] "a@b.c" (by decide) (by decide) (by decide) (by decide)
      (by decide)).2 (by decide) (by decide)
    exact h.trans (by decide)

/-- C9 counterexample: when the removal from group A fails (the code only
logs a warning and continues), the update still returns 200 but the entry
ends with two group memberships, A and C — not exactly one. -/
theorem c9_counterexample :
    (handle_update_user_group oC9 dirC9 evC9).1.statusCode = 200 ∧
    dirLookup (handle_update_user_group oC9 dirC9 evC9).2 "u" =
      some ⟨UserStatus.CONFIRMED, true, some "u@x", ["A", "C"]⟩ ∧
    (dirLookup (handle_update_user_group oC9 dirC9 evC9).2 "u").map
      (fun du => du.groups.length) = some 2 := by decide

/-- C9 as amended: for an authorized, well-formed update of an existing
entry, when every removal of a current group succeeds and the add succeeds,
the operation returns 200 and the entry ends with exactly the new group as
its only membership, regardless of how many groups it held before — hence
updating an entry already exactly in the new group is idempotent.  (A
swallowed removal failure can leave extra memberships despite the 200.) -/
theorem c9_update_group_replaces (o : Oracles) (dir : Directory) (e : Event)
    (fields : List (String × String)) (gs : List String) (username new_group : String)
    (du : DirUser)
    (hg : get_user_groups_from_event e.groupsClaim = GroupsVal.list gs)
    (hcan : can_manage_users gs = true)
    (hb : parseBody e.body = some fields)
    (hu : (lookupField fields "username").getD "" = username)
    (hng : (lookupField fields "group").getD "" = new_group)
    (hu1 : username ≠ "") (hng1 : new_group ≠ "")
    (hdu : dirLookup dir username = some du)
    (hrf : ∀ g ∈ du.groups, o.removeFails g = false)
    (haf : o.addFails = false) :
    (handle_update_user_group o dir e).1.statusCode = 200 ∧
    dirLookup (handle_update_user_group o dir e).2 username =
      some { du with groups := [new_group] } := by
  have hkept : du.groups.filter (fun g => o.removeFails g) = [] :=
    List.filter_eq_nil_iff.mpr (fun g hgg => by simp [hrf g hgg])
  unfold handle_update_user_group
  rw [hg]
  try dsimp only
  rw [hcan]
  rw [if_neg (by decide), hb]
  try dsimp only
  rw [hu, hng, if_neg (by simp [hu1, hng1]), hdu]
  try dsimp only
  rw [hkept, haf, if_neg (by decide)]
  refine ⟨rfl, ?_⟩
  rw [dirLookup_dirAddGroup_self, dirLookup_dirSetGroups_self, hdu]
  simp

/-- C9 witness: the amended update fact at concrete inputs — an entry in
groups A and B ends in exactly group C, and an entry already exactly in C
ends in exactly C again (idempotence). -/
theorem c9_witness :
    ((handle_update_user_group oracleNone dirC9w evC9).1.statusCode = 200 ∧
     dirLookup (handle_update_user_group oracleNone dirC9w evC9).2 "u" =
       some ⟨UserStatus.CONFIRMED, true, some "u@x", ["C"]⟩) ∧
    ((handle_update_user_group oracleNone dirC9idem evC9).1.statusCode = 200 ∧
     dirLookup (handle_update_user_group oracleNone dirC9idem evC9).2 "u" =
       some ⟨UserStatus.CONFIRMED, true, some "u@x", ["C"]⟩) := by
  constructor
  · exact c9_update_group_replaces oracleNone dirC9w evC9
      [("username", "u"), ("group", "C")] ["TrueTickets-Cacell-Owner"] "u" "C"
      ⟨UserStatus.CONFIRMED, true, some "u@x", ["A", "B"]⟩ (by decide) (by decide)
      (by decide) (by decide) (by decide) (by decide) (by decide) (by decide)
      (by decide) (by decide)
  · exact c9_update_group_replaces oracleNone dirC9idem evC9
      [("username", "u"), ("group", "C")] ["TrueTickets-Cacell-Owner"] "u" "C"
      ⟨UserStatus.CONFIRMED, true, some "u@x", ["C"]⟩ (by decide) (by decide)
      (by decide) (by decide) (by decide) (by decide) (by decide) (by decide)
      (by decide) (by decide)
